import Mathlib

/-!
# Verification of the `pinterb/common` signal coordinator and server shell

This development embeds the two Go packages of the repository:

* `signals` — a signal-driven lifecycle coordinator (`Handler`) that waits for
  SIGINT/SIGTERM/SIGQUIT or a programmatic `Stop()`, fans stop notifications out
  to registered subsystems, and dumps goroutine stacks on SIGQUIT;
* `server` — a thin shell (`Server`) that binds an HTTP and a gRPC listener,
  composes an HTTP middleware chain around a router, blocks in the coordinator's
  loop, and performs graceful/forced shutdown of the two protocol servers.

The embedding is shallow: Go channels and `select` are modelled by an explicit
schedule of which `select` branch fired (a `List LoopEvent`), goroutine spawns
and deferred calls by event traces, and the OS socket table by the list of
ports currently bound.  Machine behaviour that faults (closing a closed
channel panics in Go) is modelled with `Except`.
-/

deriving instance DecidableEq for Except

/-! ## The `signals` package -/

/-- A registered subsystem (`SignalReceiver` in the source): `Stop() error`.
We record an identity and the error result its `Stop` would report
(`none` = success); the coordinator's fan-out discards that result. -/
structure SignalReceiver where
  id : Nat
  stopResult : Option String
  deriving DecidableEq

/-- The signal handler (`signals.Handler`).  The Go struct holds a logger, the
receiver list and the `quit` channel; the logger is opaque (its output is the
`log` component of `LoopResult` below) and the channel's only observable state
is whether it has been closed. -/
structure Handler where
  receivers : List SignalReceiver
  quitClosed : Bool
  deriving DecidableEq

/-- `signals.NewHandler`: a fresh handler with an open `quit` channel. -/
def NewHandler (receivers : List SignalReceiver) : Handler :=
  { receivers := receivers, quitClosed := false }

/-- `Handler.Stop` is `close(h.quit)`.  In Go, closing an already-closed
channel panics with `close of closed channel`; the source has no guard, so
the model returns that fault as an `Except.error`. -/
def Handler.Stop (h : Handler) : Except String Handler :=
  if h.quitClosed then Except.error "close of closed channel"
  else Except.ok { h with quitClosed := true }

/-- Iterated `Stop`: call `Stop` `n` times in sequence, stopping at the first
fault (in Go the first panic kills the process). -/
def stopN : Nat → Handler → Except String Handler
  | 0, h => Except.ok h
  | n + 1, h =>
    match h.Stop with
    | Except.error e => Except.error e
    | Except.ok h2 => stopN n h2

/-- The three signals `Loop` subscribes to (`signal.Notify(sigs, SIGINT,
SIGQUIT, SIGTERM)`); no other signal reaches the `sigs` channel. -/
inductive Sig
  | SIGINT
  | SIGQUIT
  | SIGTERM
  deriving DecidableEq

/-- One firing of the `select` inside `Loop`: either the `quit` channel case
(only possible once the channel is closed) or a delivered signal. -/
inductive LoopEvent
  | stopClosed
  | signal (s : Sig)
  deriving DecidableEq

/-- Which branch made `Loop` return; `none` while it is still waiting. -/
inductive Cause
  | progStop
  | intTerm
  deriving DecidableEq

/-- The observable outcome of running `Loop` against a schedule: every log
message in order, every subsystem `Stop()` invocation in order together with
the (discarded) error it reported, and the cause of return. -/
structure LoopResult where
  log : List String
  stops : List (Nat × Option String)
  cause : Option Cause
  deriving DecidableEq

/-- The SIGINT/SIGTERM branch's fan-out: `for _, subsystem := range
h.receivers { subsystem.Stop() }` — every receiver, in registration order,
its error result discarded. -/
def fanOut (receivers : List SignalReceiver) : List (Nat × Option String) :=
  receivers.map (fun r => (r.id, r.stopResult))

/-- Capacity of the stack-dump buffer: `buf := make([]byte, 1<<20)`. -/
def bufCap : Nat := 1 <<< 20

/-- `stacklen := runtime.Stack(buf, true); string(buf[:stacklen])`: the dump
truncated to the buffer capacity. -/
def stackCapture (dump : String) : String :=
  String.mk (dump.toList.take bufCap)

/-- The message logged by the `<-h.quit` branch. -/
def msgStopped : String := "=== Handler.Stop()\x27d ==="

/-- The message logged on receipt of SIGINT or SIGTERM. -/
def msgIntTerm : String := "=== received SIGINT/SIGTERM ==="

/-- The four messages logged by the SIGQUIT branch, in source order. -/
def quitLog (dump : String) : List String :=
  ["=== received SIGQUIT ===",
   "*** goroutine dump...start ***",
   stackCapture dump,
   "*** goroutine dump...end ***"]

/-- `Handler.Loop`, run against a schedule of `select` firings.  `dump` is the
stack trace `runtime.Stack` would capture.  An exhausted schedule means the
loop is still blocked in `select` (`cause = none`). -/
def Handler.Loop (h : Handler) (dump : String) : List LoopEvent → LoopResult
  | [] => { log := [], stops := [], cause := none }
  | LoopEvent.stopClosed :: _ =>
    { log := [msgStopped], stops := [], cause := some Cause.progStop }
  | LoopEvent.signal Sig.SIGINT :: _ =>
    { log := [msgIntTerm], stops := fanOut h.receivers, cause := some Cause.intTerm }
  | LoopEvent.signal Sig.SIGTERM :: _ =>
    { log := [msgIntTerm], stops := fanOut h.receivers, cause := some Cause.intTerm }
  | LoopEvent.signal Sig.SIGQUIT :: rest =>
    { log := quitLog dump ++ (h.Loop dump rest).log,
      stops := (h.Loop dump rest).stops,
      cause := (h.Loop dump rest).cause }

/-- `signals.SignalHandlerLoop`: construct a handler and immediately loop. -/
def SignalHandlerLoop (receivers : List SignalReceiver) (dump : String)
    (sched : List LoopEvent) : LoopResult :=
  (NewHandler receivers).Loop dump sched

/-! ## The `server` package -/

/-- `server.Config`, restricted to the fields the lifecycle logic reads.
`HTTPMiddleware` holds the identities of the configured middleware wrappers;
durations are in nanoseconds. -/
structure Config where
  HTTPListenPort : Nat
  GRPCListenPort : Nat
  RegisterInstrumentation : Bool
  ServerGracefulShutdownTimeout : Nat
  HTTPServerReadTimeout : Nat
  HTTPServerWriteTimeout : Nat
  HTTPServerIdleTimeout : Nat
  HTTPMiddleware : List Nat
  deriving DecidableEq

/-- How a `gorilla/mux` route was registered (an external collaborator of the
shell): `Handle(path, h)` matches the exact path, `PathPrefix(path).Handler(h)`
matches every path under it. -/
inductive RouteKind
  | exact
  | subtree
  deriving DecidableEq

/-- A route on the router: its pattern and how it matches. -/
structure Route where
  pattern : String
  kind : RouteKind
  deriving DecidableEq

/-- Whether `pat` is a prefix of `path` (character-wise). -/
def pathHasPref (pat path : String) : Bool :=
  List.isPrefixOf pat.toList path.toList

/-- Whether a route matches a request path. -/
def routeMatch (r : Route) (path : String) : Bool :=
  match r.kind with
  | RouteKind.exact => r.pattern == path
  | RouteKind.subtree => pathHasPref r.pattern path

/-- The router dispatches a path to its first matching route (`none` = 404). -/
def routerHandle (router : List Route) (path : String) : Option String :=
  (router.find? (fun r => routeMatch r path)).map Route.pattern

/-- `server.RegisterInstrumentation`: registers `/metrics` (exact) and the
`/debug/pprof` subtree on the given router, in that order. -/
def RegisterInstrumentation (router : List Route) : List Route :=
  router ++ [{ pattern := "/metrics", kind := RouteKind.exact },
             { pattern := "/debug/pprof", kind := RouteKind.subtree }]

/-- The `http.Server` the shell builds: its timeouts, and the installed
handler decomposed into the middleware chain and the router it wraps
(`Handler: middleware.Merge(httpMiddleware...).Wrap(router)`). -/
structure HTTPServer where
  ReadTimeout : Nat
  WriteTimeout : Nat
  IdleTimeout : Nat
  handlerMiddleware : List Nat
  handlerRouter : List Route
  deriving DecidableEq

/-- `server.Server`: configuration, the owned signal coordinator (built with
zero receivers), the two bound listeners (identified by their port), and the
HTTP server.  The gRPC server object is opaque (an external collaborator);
its lifecycle shows up only as events in the `Run`/`Shutdown` traces. -/
structure Server where
  cfg : Config
  handler : Handler
  httpListener : Nat
  grpcListener : Nat
  httpServer : HTTPServer
  HTTP : List Route
  deriving DecidableEq

/-- The error message `net.Listen("tcp", ":port")` produces for a bind
conflict. -/
def bindErr (port : Nat) : String :=
  s!"listen tcp :{port}: bind: address already in use"

/-- `net.Listen` against the OS socket table, modelled as the list of ports
already bound: a conflict fails, otherwise the port becomes bound. -/
def netListen (used : List Nat) (port : Nat) : Except String (Nat × List Nat) :=
  if port ∈ used then Except.error (bindErr port)
  else Except.ok (port, port :: used)

/-- `errors.Wrap(err, msg)` renders as `msg ++ ": " ++ err`. -/
def wrapMsg (msg err : String) : String := msg ++ ": " ++ err

/-- `server.New`: bind the HTTP listener, then the gRPC listener (each failure
wrapped with the context `"New Server"`), build the router (instrumentation
routes iff configured), the middleware-wrapped HTTP server, and the shell with
a fresh zero-receiver signal handler. -/
def New (used : List Nat) (cfg : Config) : Except String Server :=
  match netListen used cfg.HTTPListenPort with
  | Except.error e => Except.error (wrapMsg "New Server" e)
  | Except.ok (httpListener, used2) =>
    match netListen used2 cfg.GRPCListenPort with
    | Except.error e => Except.error (wrapMsg "New Server" e)
    | Except.ok (grpcListener, _) =>
      let router := if cfg.RegisterInstrumentation then RegisterInstrumentation [] else []
      let httpMiddleware := [] ++ cfg.HTTPMiddleware
      Except.ok
        { cfg := cfg
          handler := NewHandler []
          httpListener := httpListener
          grpcListener := grpcListener
          httpServer :=
            { ReadTimeout := cfg.HTTPServerReadTimeout
              WriteTimeout := cfg.HTTPServerWriteTimeout
              IdleTimeout := cfg.HTTPServerIdleTimeout
              handlerMiddleware := httpMiddleware
              handlerRouter := router }
          HTTP := router }

/-- The error component of `New`'s result (`some` = the caller got `(nil, err)`
in Go, `none` = a server value). -/
def exceptError {α : Type} : Except String α → Option String
  | Except.error e => some e
  | Except.ok _ => none

/-- Modelled from the spec: the `middleware` package is not under `src/`
(only imported).  Per the spec, `Merge` composes the configured wrappers and
`Wrap(router)` yields a handler that passes each request through every
middleware in the chain and then to the router.  We observe, per request
path, the middleware identities traversed and the route that matched. -/
def middlewareWrap (mws : List Nat) (router : List Route) (path : String) :
    List Nat × Option String :=
  (mws, routerHandle router path)

/-- The handler the shell's HTTP server serves: the middleware chain wrapping
the whole router. -/
def Server.httpHandler (s : Server) (path : String) : List Nat × Option String :=
  middlewareWrap s.httpServer.handlerMiddleware s.httpServer.handlerRouter path

/-- The observable steps of `Server.Run`: spawn the HTTP accept task, spawn
the gRPC accept task, block until the coordinator's loop returns (carrying
its result), then the deferred `GracefulStop` of the gRPC server. -/
inductive RunEvent
  | spawnHTTPServe
  | spawnGRPCServe
  | loopReturned (r : LoopResult)
  | grpcGracefulStop
  deriving DecidableEq

/-- `Server.Run`: `go s.httpServer.Serve(...)`, `go s.GRPC.Serve(...)`,
`defer s.GRPC.GracefulStop()`, `s.handler.Loop()`.  `httpServeErr` and
`grpcServeErr` are the errors the two accept tasks eventually report; the
source discards both (fire-and-forget goroutines), so they cannot influence
the trace.  `Run` itself returns nothing. -/
def Server.Run (s : Server) (httpServeErr grpcServeErr : Option String)
    (dump : String) (sched : List LoopEvent) : List RunEvent :=
  [RunEvent.spawnHTTPServe,
   RunEvent.spawnGRPCServe,
   RunEvent.loopReturned (s.handler.Loop dump sched),
   RunEvent.grpcGracefulStop]

/-- `Server.Stop`: delegates to the coordinator's `Stop`. -/
def Server.StopShell (s : Server) : Except String Handler :=
  s.handler.Stop

/-- The observable steps of `Server.Shutdown`: the HTTP drain bounded by a
deadline (whose error the source discards) and the forced gRPC stop. -/
inductive ShutdownEvent
  | httpDrain (deadline : Nat) (err : Option String)
  | grpcForceStop
  deriving DecidableEq

/-- `Server.Shutdown`: `httpServer.Shutdown(ctx)` with
`ctx = WithTimeout(Background, cfg.ServerGracefulShutdownTimeout)`, its error
discarded, then `GRPC.Stop()` (forced, no grace period).  The function
returns nothing to its caller. -/
def Server.Shutdown (s : Server) (httpDrainErr : Option String) : List ShutdownEvent :=
  [ShutdownEvent.httpDrain s.cfg.ServerGracefulShutdownTimeout httpDrainErr,
   ShutdownEvent.grpcForceStop]

/-- A concrete configuration with instrumentation enabled and two configured
middleware wrappers. -/
def cfgInstr : Config :=
  { HTTPListenPort := 80, GRPCListenPort := 9095,
    RegisterInstrumentation := true, ServerGracefulShutdownTimeout := 0,
    HTTPServerReadTimeout := 0, HTTPServerWriteTimeout := 0,
    HTTPServerIdleTimeout := 0, HTTPMiddleware := [1, 2] }

/-- The server `New` constructs from `cfgInstr` against a free socket table. -/
def srvInstr : Server :=
  { cfg := cfgInstr
    handler := NewHandler []
    httpListener := 80
    grpcListener := 9095
    httpServer :=
      { ReadTimeout := 0, WriteTimeout := 0, IdleTimeout := 0
        handlerMiddleware := [1, 2]
        handlerRouter := RegisterInstrumentation [] }
    HTTP := RegisterInstrumentation [] }

/-! ## Claims about the signal coordinator -/

/-- C1 (counterexample): calling `Stop` twice on a fresh handler is NOT a
no-op — the second `close(h.quit)` is the fatal `close of closed channel`
panic, because `Handler.Stop` has no already-closed guard. -/
theorem stop_twice_panics :
    stopN 2 (NewHandler []) = Except.error "close of closed channel" := rfl

/-- C1 (amended): calling `Stop` exactly once closes the stop signal and
wakes a pending `Loop` through the programmatic-stop branch (exactly one
wake-up), but a second call to `Stop` is a fatal error (`close of closed
channel`), not a no-op: the source does not guard double-stop. -/
theorem stop_once_wakes_second_call_fatal (recvs : List SignalReceiver)
    (dump : String) (rest : List LoopEvent) :
    (NewHandler recvs).Stop = Except.ok { receivers := recvs, quitClosed := true }
    ∧ Handler.Stop { receivers := recvs, quitClosed := true }
        = Except.error "close of closed channel"
    ∧ Handler.Loop { receivers := recvs, quitClosed := true } dump
        (LoopEvent.stopClosed :: rest)
        = { log := [msgStopped], stops := [], cause := some Cause.progStop } :=
  ⟨rfl, rfl, rfl⟩

/-- C2: on SIGINT or SIGTERM, `Loop` logs receipt and invokes `Stop` on every
registered receiver in registration order, strictly before returning (the
fan-out is part of the returned result, whose cause is set); each receiver's
error result is discarded, so errors neither abort nor shorten the fan-out:
the invocation list projects to exactly the registered ids in order, whatever
the `stopResult`s are. -/
theorem intTerm_fans_out_in_order (h : Handler) (dump : String)
    (rest : List LoopEvent) :
    h.Loop dump (LoopEvent.signal Sig.SIGINT :: rest)
      = { log := [msgIntTerm], stops := fanOut h.receivers,
          cause := some Cause.intTerm }
    ∧ h.Loop dump (LoopEvent.signal Sig.SIGTERM :: rest)
      = { log := [msgIntTerm], stops := fanOut h.receivers,
          cause := some Cause.intTerm }
    ∧ (fanOut h.receivers).map Prod.fst = h.receivers.map SignalReceiver.id := by
  refine ⟨rfl, rfl, ?_⟩
  simp [fanOut]

/-- C3 (counterexample): a single SIGQUIT delivery produces FOUR log entries
(the receipt notice `=== received SIGQUIT ===`, then the begin marker, the
dump body and the end marker), not exactly three as claimed. -/
theorem quit_delivery_logs_four_entries :
    ((NewHandler []).Loop "stack" [LoopEvent.signal Sig.SIGQUIT]).log
      = ["=== received SIGQUIT ===", "*** goroutine dump...start ***",
         "stack", "*** goroutine dump...end ***"]
    ∧ ((NewHandler []).Loop "stack" [LoopEvent.signal Sig.SIGQUIT]).log.length ≠ 3 := by
  refine ⟨?_, by decide⟩
  show quitLog "stack" ++ [] = _
  simp [quitLog, stackCapture, bufCap]

/-- C3 (amended): `Loop` never returns because of SIGQUIT; each SIGQUIT
delivery captures the stack dump into the 1 MiB bounded buffer (truncating a
larger dump) and produces exactly FOUR log entries in order — a receipt
notice, a begin marker, the dump body, an end marker — after which the loop
continues waiting: any number of SIGQUIT deliveries leaves the cause empty,
fans out to no subsystem, and contributes four log entries each. -/
theorem quit_nonterminal_four_entries_each (h : Handler) (dump : String)
    (rest : List LoopEvent) (n : Nat) :
    h.Loop dump (LoopEvent.signal Sig.SIGQUIT :: rest)
      = { log := quitLog dump ++ (h.Loop dump rest).log,
          stops := (h.Loop dump rest).stops,
          cause := (h.Loop dump rest).cause }
    ∧ (quitLog dump).length = 4
    ∧ (stackCapture dump).length ≤ bufCap
    ∧ (h.Loop dump (List.replicate n (LoopEvent.signal Sig.SIGQUIT))).cause = none
    ∧ (h.Loop dump (List.replicate n (LoopEvent.signal Sig.SIGQUIT))).stops = []
    ∧ (h.Loop dump (List.replicate n (LoopEvent.signal Sig.SIGQUIT))).log.length
        = 4 * n := by
  have hcap : (stackCapture dump).length ≤ bufCap := by
    show (dump.toList.take bufCap).length ≤ bufCap
    rw [List.length_take]
    exact Nat.min_le_left _ _
  have key : ∀ m : Nat,
      (h.Loop dump (List.replicate m (LoopEvent.signal Sig.SIGQUIT))).cause = none
      ∧ (h.Loop dump (List.replicate m (LoopEvent.signal Sig.SIGQUIT))).stops = []
      ∧ (h.Loop dump (List.replicate m (LoopEvent.signal Sig.SIGQUIT))).log.length
          = 4 * m := by
    intro m
    induction m with
    | zero => exact ⟨rfl, rfl, rfl⟩
    | succ k ih =>
      obtain ⟨hc, hs, hl⟩ := ih
      refine ⟨?_, ?_, ?_⟩
      · simpa [List.replicate_succ, Handler.Loop] using hc
      · simpa [List.replicate_succ, Handler.Loop] using hs
      · simp [List.replicate_succ, Handler.Loop, quitLog, hl]
        omega
  exact ⟨rfl, rfl, hcap, (key n).1, (key n).2.1, (key n).2.2⟩

/-- C4: whenever the `select` observes the closed stop signal, `Loop` logs
the programmatic-stop event and returns immediately: no subsystem is stopped
and nothing else is logged, whatever events would have followed. -/
theorem progStop_returns_without_fanout (h : Handler) (dump : String)
    (rest : List LoopEvent) :
    h.Loop dump (LoopEvent.stopClosed :: rest)
      = { log := [msgStopped], stops := [], cause := some Cause.progStop } := rfl

/-- C9: if `Stop` is called on a fresh handler before `Loop` is entered, the
stop succeeds, leaves the single-use signal closed, and a subsequent `Loop`
returns immediately through the programmatic-stop branch — it logs the stop
event and performs no subsystem fan-out. -/
theorem stop_before_loop_returns_immediately (recvs : List SignalReceiver)
    (dump : String) (rest : List LoopEvent) :
    ∃ h2 : Handler,
      (NewHandler recvs).Stop = Except.ok h2
      ∧ h2.quitClosed = true
      ∧ h2.Loop dump (LoopEvent.stopClosed :: rest)
          = { log := [msgStopped], stops := [], cause := some Cause.progStop } :=
  ⟨{ receivers := recvs, quitClosed := true }, rfl, rfl, rfl⟩

/-! ## Claims about the server shell -/

/-- C5 (counterexample): the wrapped bind error does NOT report which stage
failed.  With HTTP port = gRPC port = 80: against a socket table where 80 is
already bound, the HTTP bind itself fails; against an empty table, the HTTP
bind succeeds and the gRPC bind fails — yet `New` returns the IDENTICAL
error in both runs (both stages wrap with the same `"New Server"` context),
so no reader of the error can tell the HTTP stage from the RPC stage. -/
theorem bind_error_does_not_name_stage :
    netListen [80] 80 = Except.error (bindErr 80)
    ∧ netListen [] 80 = Except.ok (80, [80])
    ∧ New [80]
        { HTTPListenPort := 80, GRPCListenPort := 80,
          RegisterInstrumentation := false, ServerGracefulShutdownTimeout := 0,
          HTTPServerReadTimeout := 0, HTTPServerWriteTimeout := 0,
          HTTPServerIdleTimeout := 0, HTTPMiddleware := [] }
      = New []
        { HTTPListenPort := 80, GRPCListenPort := 80,
          RegisterInstrumentation := false, ServerGracefulShutdownTimeout := 0,
          HTTPServerReadTimeout := 0, HTTPServerWriteTimeout := 0,
          HTTPServerIdleTimeout := 0, HTTPMiddleware := [] }
    ∧ New [80]
        { HTTPListenPort := 80, GRPCListenPort := 80,
          RegisterInstrumentation := false, ServerGracefulShutdownTimeout := 0,
          HTTPServerReadTimeout := 0, HTTPServerWriteTimeout := 0,
          HTTPServerIdleTimeout := 0, HTTPMiddleware := [] }
      = Except.error "New Server: listen tcp :80: bind: address already in use" := by
  refine ⟨rfl, rfl, ?_, ?_⟩ <;> decide

/-- C5 (amended): when either bind fails, `New` returns the underlying bind
error wrapped with the FIXED context `"New Server"`, identical for both
stages; the wrapped error does not name the stage (HTTP or RPC) that failed.
This characterises `New`'s error exactly: an HTTP-port conflict yields the
wrapped HTTP bind error, otherwise a gRPC-port conflict (including a clash
with the just-bound HTTP port) yields the wrapped gRPC bind error, otherwise
construction succeeds. -/
theorem new_bind_error_fixed_context (used : List Nat) (cfg : Config) :
    exceptError (New used cfg)
      = if cfg.HTTPListenPort ∈ used then
          some (wrapMsg "New Server" (bindErr cfg.HTTPListenPort))
        else if cfg.GRPCListenPort ∈ cfg.HTTPListenPort :: used then
          some (wrapMsg "New Server" (bindErr cfg.GRPCListenPort))
        else none := by
  by_cases h1 : cfg.HTTPListenPort ∈ used
  · simp [New, netListen, h1, exceptError]
  · by_cases h2 : cfg.GRPCListenPort ∈ cfg.HTTPListenPort :: used
    · simp [New, netListen, h1, h2, exceptError]
    · simp [New, netListen, h1, h2, exceptError]

/-- C6: when the gRPC listener bind fails after the HTTP listener bind
succeeded, `New` reports failure and returns no server value: the result is
the wrapped gRPC bind error and carries no `Server`. -/
theorem grpc_bind_fail_returns_no_server (used : List Nat) (cfg : Config)
    (h1 : cfg.HTTPListenPort ∉ used)
    (h2 : cfg.GRPCListenPort ∈ cfg.HTTPListenPort :: used) :
    New used cfg = Except.error (wrapMsg "New Server" (bindErr cfg.GRPCListenPort)) := by
  simp [New, netListen, h1, h2]

/-- C6 witness: HTTP port 80 free, gRPC port 9095 already bound. -/
theorem grpc_bind_fail_returns_no_server_witness :
    (80 ∉ ([9095] : List Nat))
    ∧ ((9095 : Nat) ∈ (80 :: [9095] : List Nat))
    ∧ New [9095]
        { HTTPListenPort := 80, GRPCListenPort := 9095,
          RegisterInstrumentation := false, ServerGracefulShutdownTimeout := 0,
          HTTPServerReadTimeout := 0, HTTPServerWriteTimeout := 0,
          HTTPServerIdleTimeout := 0, HTTPMiddleware := [] }
      = Except.error (wrapMsg "New Server" (bindErr 9095)) :=
  ⟨by decide, by decide,
   grpc_bind_fail_returns_no_server [9095]
     { HTTPListenPort := 80, GRPCListenPort := 9095,
       RegisterInstrumentation := false, ServerGracefulShutdownTimeout := 0,
       HTTPServerReadTimeout := 0, HTTPServerWriteTimeout := 0,
       HTTPServerIdleTimeout := 0, HTTPMiddleware := [] }
     (by decide) (by decide)⟩

/-- C7: `Run` spawns the HTTP accept task, then the gRPC accept task, then
blocks on the owned coordinator's `Loop`, and after `Loop` returns performs
the deferred graceful stop of the gRPC server as its final step before
returning; the errors the two serving tasks report are not surfaced — the
trace is independent of them. -/
theorem run_spawns_loops_then_graceful_stop (s : Server)
    (httpServeErr grpcServeErr : Option String) (dump : String)
    (sched : List LoopEvent) :
    s.Run httpServeErr grpcServeErr dump sched
      = [RunEvent.spawnHTTPServe, RunEvent.spawnGRPCServe,
         RunEvent.loopReturned (s.handler.Loop dump sched),
         RunEvent.grpcGracefulStop]
    ∧ s.Run httpServeErr grpcServeErr dump sched = s.Run none none dump sched
    ∧ (s.Run httpServeErr grpcServeErr dump sched).getLast?
        = some RunEvent.grpcGracefulStop :=
  ⟨rfl, rfl, rfl⟩

/-- C8: `Shutdown` hands the HTTP server a drain bounded by the configured
graceful-shutdown timeout and force-stops the gRPC server with no grace
period; both actions appear in the trace whatever error the HTTP drain
reports (the drain error is discarded, never aborting the gRPC stop, and
`Shutdown` returns nothing to its caller). -/
theorem shutdown_drains_http_and_force_stops_grpc (s : Server)
    (httpDrainErr : Option String) :
    s.Shutdown httpDrainErr
      = [ShutdownEvent.httpDrain s.cfg.ServerGracefulShutdownTimeout httpDrainErr,
         ShutdownEvent.grpcForceStop]
    ∧ (s.Shutdown httpDrainErr).getLast? = some ShutdownEvent.grpcForceStop :=
  ⟨rfl, rfl⟩

/-- C10 (modelled from the spec for the `middleware` package, which is not
under `src/`): in `New`, the configured middleware chain wraps the ENTIRE
router — instrumentation routes are registered on the router before the wrap
— so with instrumentation enabled, a request to `/metrics` or to any path
under `/debug/pprof` passes through every configured middleware and reaches
the instrumentation route, exactly like application routes. -/
theorem instrumentation_routes_pass_middleware (used : List Nat) (cfg : Config)
    (s : Server) (p : String)
    (hinstr : cfg.RegisterInstrumentation = true)
    (hok : New used cfg = Except.ok s)
    (hp : pathHasPref "/debug/pprof" p = true) :
    s.httpHandler "/metrics" = (cfg.HTTPMiddleware, some "/metrics")
    ∧ s.httpHandler p = (cfg.HTTPMiddleware, some "/debug/pprof") := by
  have hmne : ("/metrics" == p) = false := by
    by_cases hq : "/metrics" = p
    · subst hq
      exact absurd hp (by decide)
    · exact beq_eq_false_iff_ne.mpr hq
  by_cases h1 : cfg.HTTPListenPort ∈ used
  · simp [New, netListen, h1] at hok
  · by_cases h2 : cfg.GRPCListenPort ∈ cfg.HTTPListenPort :: used
    · simp [New, netListen, h1, h2] at hok
    · simp [New, netListen, h1, h2] at hok
      subst hok
      constructor
      · simp [Server.httpHandler, middlewareWrap, routerHandle,
              RegisterInstrumentation, routeMatch, hinstr, List.find?]
      · simp [Server.httpHandler, middlewareWrap, routerHandle,
              RegisterInstrumentation, routeMatch, hinstr, hp, hmne,
              List.find?]

/-- C10 witness: construction with instrumentation on and middleware
`[1, 2]`; both `/metrics` and `/debug/pprof/heap` traverse the full chain. -/
theorem instrumentation_routes_pass_middleware_witness :
    cfgInstr.RegisterInstrumentation = true
    ∧ New [] cfgInstr = Except.ok srvInstr
    ∧ pathHasPref "/debug/pprof" "/debug/pprof/heap" = true
    ∧ srvInstr.httpHandler "/metrics" = ([1, 2], some "/metrics")
    ∧ srvInstr.httpHandler "/debug/pprof/heap" = ([1, 2], some "/debug/pprof") := by
  refine ⟨rfl, by decide, by decide, ?_, ?_⟩
  · exact (instrumentation_routes_pass_middleware [] cfgInstr srvInstr
      "/debug/pprof/heap" rfl (by decide) (by decide)).1
  · exact (instrumentation_routes_pass_middleware [] cfgInstr srvInstr
      "/debug/pprof/heap" rfl (by decide) (by decide)).2
